import Mathlib

/-!
Shallow embedding of src/packages/core/ai-model-specification/util/response-handler.ts.

The three response handler strategies are translated directly from the source file.
Their external collaborators are not under src/ and are modelled from the spec:
the schema validation capability, the strict and tolerant JSON decoding helpers,
the Structured API Error record, the Parsed Chunk tagged union, and the
event-framing stage of the streaming pipeline, whose output events are taken as
the streaming body. Raising is represented by the error constructor of Except, so
a handler that never raises is one whose result is always built with Except.ok.
-/

/-- Modelled from the spec: the schema validation capability combined with JSON
text decoding (spec section 4.4, Tolerant JSON Decoder), abstracted as a total
decoding function from body text to either a typed value or a structured parse
failure. -/
structure JsonSchema (T : Type) where
  decode : String → Except String T

/-- Modelled from the spec: strict JSON parse plus schema validation (the
parseJSON helper of parse-json.ts). A raising execution is the Except.error
constructor; it raises exactly when the tolerant decoder reports a failure. -/
def parseJSON {T : Type} (schema : JsonSchema T) (text : String) : Except String T :=
  schema.decode text

/-- Modelled from the spec: tolerant JSON parse plus schema validation (the
safeParseJSON helper of parse-json.ts), returning a Tolerant Parse Result and
never raising: Except.ok is the success shape, Except.error the failure shape. -/
def safeParseJSON {T : Type} (schema : JsonSchema T) (text : String) : Except String T :=
  schema.decode text

/-- Modelled from the spec: one event of the line-oriented event-stream format,
as produced by the external event-framing stage; only the data field is used by
this core. -/
structure ParsedEvent where
  data : String
  eventName : Option String := none
  id : Option String := none
  deriving Repr, DecidableEq

/-- The HTTP response object as the handlers consume it: status code, status
text, the full body text exposed by the text reader, and the optional streaming
body. The streaming body is modelled at the event level, after the external
byte-decoding and event-framing stages of the pipeline; an absent body is none. -/
structure Response where
  status : Nat
  statusText : String
  bodyText : String
  body : Option (List ParsedEvent) := none
  deriving Repr, DecidableEq

/-- The options record every ResponseHandler receives: url, requestBodyValues
and response (response-handler.ts lines 10 to 14). -/
structure HandlerInput (U : Type) where
  url : String
  requestBodyValues : U
  response : Response
  deriving Repr, DecidableEq

/-- Modelled from the spec: the Structured API Error (the ApiCallError record):
message, source url, original request payload, HTTP status code, raw response
body, optional decoded error payload, optional retryability flag (absent means
unknown), optional underlying cause. -/
structure ApiCallError (U T : Type) where
  message : String
  url : String
  requestBodyValues : U
  statusCode : Nat
  responseBody : String
  data : Option T := none
  isRetryable : Option Bool := none
  cause : Option String := none
  deriving Repr, DecidableEq

/-- Modelled from the spec: the Parsed Chunk tagged union over a success value
and a failure carrying a structured parse error. -/
inductive ParsedChunk (T : Type) where
  | value (value : T)
  | error (error : String)
  deriving Repr, DecidableEq

/-- The configuration record of createJsonErrorResponseHandler: the error
schema, the requester-supplied message mapping, and the optional retryability
predicate. The optional second argument of the predicate is an Option. -/
structure JsonErrorHandlerConfig (T : Type) where
  errorSchema : JsonSchema T
  errorToMessage : T → String
  isRetryable : Option (Response → Option T → Bool) := none

/-- Translation of createJsonErrorResponseHandler (response-handler.ts lines 16
to 67): empty-trim branch, then the try block around the strict parse rendered
with Except.tryCatch, whose catch branch builds the fallback error. -/
def createJsonErrorResponseHandler {T U : Type} (cfg : JsonErrorHandlerConfig T)
    (input : HandlerInput U) : Except String (ApiCallError U T) :=
  if input.response.bodyText.trim = ("") then
    pure { message := input.response.statusText
           url := input.url
           requestBodyValues := input.requestBodyValues
           statusCode := input.response.status
           responseBody := input.response.bodyText
           isRetryable := cfg.isRetryable.map (fun f => f input.response none) }
  else
    Except.tryCatch
      (do
        let parsedError ← parseJSON cfg.errorSchema input.response.bodyText
        pure { message := cfg.errorToMessage parsedError
               url := input.url
               requestBodyValues := input.requestBodyValues
               statusCode := input.response.status
               responseBody := input.response.bodyText
               data := some parsedError
               isRetryable :=
                 cfg.isRetryable.map (fun f => f input.response (some parsedError)) })
      (fun _parseError =>
        pure { message := input.response.statusText
               url := input.url
               requestBodyValues := input.requestBodyValues
               statusCode := input.response.status
               responseBody := input.response.bodyText
               isRetryable := cfg.isRetryable.map (fun f => f input.response none) })

/-- The per-event transform of createEventSourceResponseHandler (lines 82 to
99): a DONE data value is filtered out producing no chunk; any other event is
tolerantly decoded and yields exactly one chunk. -/
def eventSourceStep {T : Type} (chunkSchema : JsonSchema T) (ev : ParsedEvent) :
    Option (ParsedChunk T) :=
  if ev.data = ("[DONE]") then none
  else
    match safeParseJSON chunkSchema ev.data with
    | Except.ok v => some (ParsedChunk.value v)
    | Except.error e => some (ParsedChunk.error e)

/-- Translation of createEventSourceResponseHandler (lines 69 to 101): throw
when the body is absent, otherwise run the per-event transform over the framed
events of the body; the produced stream is the resulting chunk list. -/
def createEventSourceResponseHandler {T U : Type} (chunkSchema : JsonSchema T)
    (input : HandlerInput U) : Except String (List (ParsedChunk T)) :=
  match input.response.body with
  | none => Except.error ("No response body")
  | some events => Except.ok (events.filterMap (eventSourceStep chunkSchema))

/-- Translation of createJsonResponseHandler (lines 103 to 125): tolerantly
decode the whole body text; on failure throw a Structured API Error wrapping the
decode failure as cause, otherwise return the validated value. -/
def createJsonResponseHandler {T U : Type} (responseSchema : JsonSchema T)
    (input : HandlerInput U) : Except (ApiCallError U T) T :=
  match safeParseJSON responseSchema input.response.bodyText with
  | Except.error e =>
      Except.error { message := ("Invalid JSON response")
                     cause := some e
                     statusCode := input.response.status
                     responseBody := input.response.bodyText
                     url := input.url
                     requestBodyValues := input.requestBodyValues }
  | Except.ok v => Except.ok v

/-- Total chunk produced for one non-terminator event: success-tagged on a
decode success, failure-tagged otherwise. Used to state that every event that
is not the terminator yields exactly one chunk. -/
def chunkOf {T : Type} (chunkSchema : JsonSchema T) (ev : ParsedEvent) : ParsedChunk T :=
  match safeParseJSON chunkSchema ev.data with
  | Except.ok v => ParsedChunk.value v
  | Except.error e => ParsedChunk.error e

/-- Concrete decoding fixture: accepts the digit strings used by the witnesses
and rejects everything else, like a JSON number schema would. -/
def natSchema : JsonSchema Nat :=
  JsonSchema.mk (fun s =>
    if s = ("1") then Except.ok 1
    else if s = ("2") then Except.ok 2
    else if s = ("42") then Except.ok 42
    else Except.error (("invalid JSON: ") ++ s))

/-- Concrete error-handler configuration fixture with a retryability predicate
that retries exactly on status 429. -/
def natErrorConfig : JsonErrorHandlerConfig Nat :=
  { errorSchema := natSchema
    errorToMessage := fun n => ("error code ") ++ toString n
    isRetryable := some (fun r _ => r.status == 429) }

/-- Fixture: a 500 response whose body text is empty. -/
def respEmpty : Response :=
  { status := 500, statusText := ("Internal Server Error"), bodyText := ("") }

/-- Fixture: a 429 response whose body text decodes under natSchema. -/
def respParsed : Response :=
  { status := 429, statusText := ("Too Many Requests"), bodyText := ("42") }

/-- Fixture: a 500 response whose body text fails to decode under natSchema. -/
def respBad : Response :=
  { status := 500, statusText := ("Internal Server Error"), bodyText := ("oops") }

/-- Fixture input with the empty-body response. -/
def inputEmpty : HandlerInput Nat :=
  { url := ("https://api.example.com/v1"), requestBodyValues := 7, response := respEmpty }

/-- Fixture input with the decodable-body response. -/
def inputParsed : HandlerInput Nat :=
  { url := ("https://api.example.com/v1"), requestBodyValues := 7, response := respParsed }

/-- Fixture input with the undecodable-body response. -/
def inputBad : HandlerInput Nat :=
  { url := ("https://api.example.com/v1"), requestBodyValues := 7, response := respBad }

/-- Fixture streamed event whose data decodes to 1 under natSchema. -/
def evOk1 : ParsedEvent := { data := ("1") }

/-- Fixture streamed event whose data decodes to 2 under natSchema. -/
def evOk2 : ParsedEvent := { data := ("2") }

/-- Fixture streamed event whose data fails to decode under natSchema. -/
def evBad : ParsedEvent := { data := ("nope") }

/-- Fixture streamed event carrying the end-of-stream terminator. -/
def evDone : ParsedEvent := { data := ("[DONE]") }

/-- Fixture streaming response: two decodable events then the terminator. -/
def respStream : Response :=
  { status := 200, statusText := ("OK"), bodyText := ("")
    body := some [evOk1, evOk2, evDone] }

/-- Fixture streaming response with a failing event between two decodable
ones, then the terminator. -/
def respStreamMixed : Response :=
  { status := 200, statusText := ("OK"), bodyText := ("")
    body := some [evOk1, evBad, evOk2, evDone] }

/-- Fixture streaming response whose body is absent. -/
def respNoBody : Response :=
  { status := 200, statusText := ("OK"), bodyText := ("") }

/-- Fixture input with the well-formed streaming response. -/
def inputStream : HandlerInput Nat :=
  { url := ("https://api.example.com/v1"), requestBodyValues := 7, response := respStream }

/-- Fixture input sharing the streaming response of inputStream but with a
different url and a different request payload. -/
def inputStreamAlt : HandlerInput Nat :=
  { url := ("https://api.example.com/v2"), requestBodyValues := 8, response := respStream }

/-- Fixture input with the mixed streaming response. -/
def inputStreamMixed : HandlerInput Nat :=
  { url := ("https://api.example.com/v1"), requestBodyValues := 7, response := respStreamMixed }

/-- Fixture input with the absent-body response. -/
def inputNoBody : HandlerInput Nat :=
  { url := ("https://api.example.com/v1"), requestBodyValues := 7, response := respNoBody }

/-- Evaluation helper for the fixtures: trimming the empty body text. -/
theorem trim_eval_empty : ("").trim = ("") := by
  show Substring.toString _ = _
  rw [String.toSubstring, Substring.trim]
  rw [Substring.takeWhileAux]
  norm_num
  rw [Substring.takeRightWhileAux]
  norm_num
  decide

/-- Evaluation helper for the fixtures: trimming the decodable body text. -/
theorem trim_eval_42 : ("42").trim = ("42") := by
  show Substring.toString _ = _
  rw [String.toSubstring, Substring.trim]
  rw [Substring.takeWhileAux]
  norm_num
  rw [Substring.takeRightWhileAux]
  norm_num
  decide

/-- Evaluation helper for the fixtures: trimming the undecodable body text. -/
theorem trim_eval_oops : ("oops").trim = ("oops") := by
  show Substring.toString _ = _
  rw [String.toSubstring, Substring.trim]
  rw [Substring.takeWhileAux]
  norm_num
  rw [Substring.takeRightWhileAux]
  norm_num
  decide

/-- Branch equation of the error handler: the empty-trim branch. -/
theorem errorHandler_empty_eq {T U : Type} (cfg : JsonErrorHandlerConfig T)
    (input : HandlerInput U) (h : input.response.bodyText.trim = ("")) :
    createJsonErrorResponseHandler cfg input =
      Except.ok { message := input.response.statusText
                  url := input.url
                  requestBodyValues := input.requestBodyValues
                  statusCode := input.response.status
                  responseBody := input.response.bodyText
                  isRetryable := cfg.isRetryable.map (fun f => f input.response none) } := by
  unfold createJsonErrorResponseHandler
  rw [if_pos h]
  rfl

/-- Branch equation of the error handler: non-empty body whose strict parse
succeeds. -/
theorem errorHandler_parsed_eq {T U : Type} (cfg : JsonErrorHandlerConfig T)
    (input : HandlerInput U) (h : input.response.bodyText.trim ≠ ("")) (v : T)
    (hp : parseJSON cfg.errorSchema input.response.bodyText = Except.ok v) :
    createJsonErrorResponseHandler cfg input =
      Except.ok { message := cfg.errorToMessage v
                  url := input.url
                  requestBodyValues := input.requestBodyValues
                  statusCode := input.response.status
                  responseBody := input.response.bodyText
                  data := some v
                  isRetryable :=
                    cfg.isRetryable.map (fun f => f input.response (some v)) } := by
  unfold createJsonErrorResponseHandler
  rw [if_neg h]
  show Except.tryCatch (parseJSON cfg.errorSchema input.response.bodyText >>= _) _ = _
  rw [hp]
  rfl

/-- Branch equation of the error handler: non-empty body whose strict parse
raises, caught by the fallback branch. -/
theorem errorHandler_fallback_eq {T U : Type} (cfg : JsonErrorHandlerConfig T)
    (input : HandlerInput U) (h : input.response.bodyText.trim ≠ ("")) (e : String)
    (hp : parseJSON cfg.errorSchema input.response.bodyText = Except.error e) :
    createJsonErrorResponseHandler cfg input =
      Except.ok { message := input.response.statusText
                  url := input.url
                  requestBodyValues := input.requestBodyValues
                  statusCode := input.response.status
                  responseBody := input.response.bodyText
                  isRetryable := cfg.isRetryable.map (fun f => f input.response none) } := by
  unfold createJsonErrorResponseHandler
  rw [if_neg h]
  show Except.tryCatch (parseJSON cfg.errorSchema input.response.bodyText >>= _) _ = _
  rw [hp]
  rfl

/-- C1: for every schema, message mapping, optional retryability predicate, url,
request payload and response (any body text whatsoever), the error response
handler returns a Structured API Error through the success constructor: it never
raises. -/
theorem createJsonErrorResponseHandler_never_raises {T U : Type}
    (cfg : JsonErrorHandlerConfig T) (input : HandlerInput U) :
    ∃ e : ApiCallError U T, createJsonErrorResponseHandler cfg input = Except.ok e := by
  by_cases h : input.response.bodyText.trim = ("")
  · exact ⟨_, errorHandler_empty_eq cfg input h⟩
  · cases hp : parseJSON cfg.errorSchema input.response.bodyText with
    | ok v => exact ⟨_, errorHandler_parsed_eq cfg input h v hp⟩
    | error e => exact ⟨_, errorHandler_fallback_eq cfg input h e hp⟩

/-- C2: whenever the body text trims to empty, the error handler returns a
Structured API Error whose message is the status text, with no decoded payload,
and whose retryability flag is the predicate applied to the response alone, or
absent when no predicate was supplied. -/
theorem errorHandler_empty_body_spec {T U : Type} (cfg : JsonErrorHandlerConfig T)
    (input : HandlerInput U) (h : input.response.bodyText.trim = ("")) :
    ∃ err : ApiCallError U T, createJsonErrorResponseHandler cfg input = Except.ok err ∧
      err.message = input.response.statusText ∧ err.data = none ∧
      err.isRetryable = cfg.isRetryable.map (fun f => f input.response none) :=
  ⟨_, errorHandler_empty_eq cfg input h, rfl, rfl, rfl⟩

/-- Witness for C2: a 500 response with empty body under the concrete fixture
configuration. -/
theorem errorHandler_empty_body_spec_witness :
    ∃ err : ApiCallError Nat Nat,
      createJsonErrorResponseHandler natErrorConfig inputEmpty = Except.ok err ∧
      err.message = inputEmpty.response.statusText ∧ err.data = none ∧
      err.isRetryable = natErrorConfig.isRetryable.map (fun f => f inputEmpty.response none) :=
  errorHandler_empty_body_spec natErrorConfig inputEmpty trim_eval_empty

/-- C3: whenever the body text trims to non-empty and strict parsing plus schema
validation succeeds, the error handler returns a Structured API Error whose
message is the message mapping applied to the decoded payload, with the payload
attached and the retryability flag computed from the response and the payload. -/
theorem errorHandler_parsed_body_spec {T U : Type} (cfg : JsonErrorHandlerConfig T)
    (input : HandlerInput U) (h : input.response.bodyText.trim ≠ ("")) (v : T)
    (hp : parseJSON cfg.errorSchema input.response.bodyText = Except.ok v) :
    ∃ err : ApiCallError U T, createJsonErrorResponseHandler cfg input = Except.ok err ∧
      err.message = cfg.errorToMessage v ∧ err.data = some v ∧
      err.isRetryable = cfg.isRetryable.map (fun f => f input.response (some v)) :=
  ⟨_, errorHandler_parsed_eq cfg input h v hp, rfl, rfl, rfl⟩

/-- Witness for C3: the spec scenario of a 429 response whose body decodes, with
a retryability predicate true exactly on status 429. -/
theorem errorHandler_parsed_body_spec_witness :
    ∃ err : ApiCallError Nat Nat,
      createJsonErrorResponseHandler natErrorConfig inputParsed = Except.ok err ∧
      err.message = natErrorConfig.errorToMessage 42 ∧ err.data = some 42 ∧
      err.isRetryable = natErrorConfig.isRetryable.map (fun f => f inputParsed.response (some 42)) :=
  errorHandler_parsed_body_spec natErrorConfig inputParsed
    (by rw [show inputParsed.response.bodyText = ("42") from rfl, trim_eval_42]; decide)
    42 (by rfl)

/-- C4: whenever the body text trims to non-empty and parsing or validation
fails, the error handler returns the same shape as the empty-body case, with the
raw body text preserved verbatim in the result. -/
theorem errorHandler_fallback_body_spec {T U : Type} (cfg : JsonErrorHandlerConfig T)
    (input : HandlerInput U) (h : input.response.bodyText.trim ≠ ("")) (e : String)
    (hp : parseJSON cfg.errorSchema input.response.bodyText = Except.error e) :
    ∃ err : ApiCallError U T, createJsonErrorResponseHandler cfg input = Except.ok err ∧
      err.message = input.response.statusText ∧ err.data = none ∧
      err.isRetryable = cfg.isRetryable.map (fun f => f input.response none) ∧
      err.responseBody = input.response.bodyText :=
  ⟨_, errorHandler_fallback_eq cfg input h e hp, rfl, rfl, rfl, rfl⟩

/-- Witness for C4: a 500 response whose body fails to decode under the concrete
fixture schema. -/
theorem errorHandler_fallback_body_spec_witness :
    ∃ err : ApiCallError Nat Nat,
      createJsonErrorResponseHandler natErrorConfig inputBad = Except.ok err ∧
      err.message = inputBad.response.statusText ∧ err.data = none ∧
      err.isRetryable = natErrorConfig.isRetryable.map (fun f => f inputBad.response none) ∧
      err.responseBody = inputBad.response.bodyText :=
  errorHandler_fallback_body_spec natErrorConfig inputBad
    (by rw [show inputBad.response.bodyText = ("oops") from rfl, trim_eval_oops]; decide)
    (("invalid JSON: ") ++ ("oops")) (by rfl)

/-- C5: in every branch of the error handler the returned Structured API Error
carries the source url, the original request payload, the HTTP status code and
the full raw response body text. -/
theorem errorHandler_context_spec {T U : Type} (cfg : JsonErrorHandlerConfig T)
    (input : HandlerInput U) :
    ∃ err : ApiCallError U T, createJsonErrorResponseHandler cfg input = Except.ok err ∧
      err.url = input.url ∧ err.requestBodyValues = input.requestBodyValues ∧
      err.statusCode = input.response.status ∧
      err.responseBody = input.response.bodyText := by
  by_cases h : input.response.bodyText.trim = ("")
  · exact ⟨_, errorHandler_empty_eq cfg input h, rfl, rfl, rfl, rfl⟩
  · cases hp : parseJSON cfg.errorSchema input.response.bodyText with
    | ok v => exact ⟨_, errorHandler_parsed_eq cfg input h v hp, rfl, rfl, rfl, rfl⟩
    | error e => exact ⟨_, errorHandler_fallback_eq cfg input h e hp, rfl, rfl, rfl, rfl⟩

/-- The per-event transform never drops a non-terminator event: it yields
exactly the total chunk of that event. -/
theorem eventSourceStep_eq_some_chunkOf {T : Type} (chunkSchema : JsonSchema T)
    (ev : ParsedEvent) (h : ev.data ≠ ("[DONE]")) :
    eventSourceStep chunkSchema ev = some (chunkOf chunkSchema ev) := by
  unfold eventSourceStep chunkOf
  rw [if_neg h]
  cases safeParseJSON chunkSchema ev.data <;> rfl

/-- The per-event transform drops exactly the terminator events. -/
theorem eventSourceStep_done {T : Type} (chunkSchema : JsonSchema T)
    (ev : ParsedEvent) (h : ev.data = ("[DONE]")) :
    eventSourceStep chunkSchema ev = none := by
  unfold eventSourceStep
  rw [if_pos h]

/-- Running the per-event transform over an event list keeps every
non-terminator event, in order, as its total chunk. -/
theorem filterMap_eventSourceStep_eq {T : Type} (chunkSchema : JsonSchema T)
    (events : List ParsedEvent) :
    events.filterMap (eventSourceStep chunkSchema) =
      (events.filter (fun ev => ev.data != ("[DONE]"))).map (chunkOf chunkSchema) := by
  induction events with
  | nil => rfl
  | cons e es ih =>
    by_cases h : e.data = ("[DONE]")
    · rw [List.filterMap_cons, eventSourceStep_done chunkSchema e h]
      rw [List.filter_cons_of_neg (by simp [h])]
      exact ih
    · rw [List.filterMap_cons, eventSourceStep_eq_some_chunkOf chunkSchema e h]
      rw [List.filter_cons_of_pos (by simp [h])]
      show chunkOf chunkSchema e :: es.filterMap (eventSourceStep chunkSchema) = _
      rw [List.map_cons, ih]

/-- C6: whenever the response body is absent, the streaming handler fails
immediately with the no-response-body error instead of returning a chunk
sequence. -/
theorem eventSourceHandler_no_body_spec {T U : Type} (chunkSchema : JsonSchema T)
    (input : HandlerInput U) (h : input.response.body = none) :
    createEventSourceResponseHandler (T := T) chunkSchema input =
      Except.error ("No response body") := by
  unfold createEventSourceResponseHandler
  rw [h]

/-- Witness for C6: the fixture input whose response carries no body. -/
theorem eventSourceHandler_no_body_spec_witness :
    createEventSourceResponseHandler (T := Nat) natSchema inputNoBody =
      Except.error ("No response body") :=
  eventSourceHandler_no_body_spec natSchema inputNoBody rfl

/-- C8: whenever the body is present, the streaming handler emits exactly one
chunk for every event whose data is not the terminator, in arrival order, each
chunk success-tagged when the data decodes and failure-tagged with the parse
error otherwise; no event is dropped and a failure does not abort the rest. -/
theorem eventSourceHandler_one_chunk_per_event_spec {T U : Type}
    (chunkSchema : JsonSchema T) (input : HandlerInput U)
    (events : List ParsedEvent) (h : input.response.body = some events) :
    createEventSourceResponseHandler chunkSchema input =
      Except.ok ((events.filter (fun ev => ev.data != ("[DONE]"))).map
        (chunkOf chunkSchema)) := by
  unfold createEventSourceResponseHandler
  rw [h]
  show Except.ok (events.filterMap (eventSourceStep chunkSchema)) = _
  rw [filterMap_eventSourceStep_eq]

/-- Witness for C8: a stream with a decodable event, then a failing one, then a
decodable one, then the terminator, yielding value, error, value. -/
theorem eventSourceHandler_one_chunk_per_event_spec_witness :
    createEventSourceResponseHandler natSchema inputStreamMixed =
      Except.ok [ParsedChunk.value 1,
                 ParsedChunk.error (("invalid JSON: ") ++ ("nope")),
                 ParsedChunk.value 2] := by
  rw [eventSourceHandler_one_chunk_per_event_spec natSchema inputStreamMixed
    [evOk1, evBad, evOk2, evDone] rfl]
  rfl

/-- C7: for a streamed body of events that all decode successfully followed by
the terminator event, the handler produces exactly one success-tagged chunk per
event, in arrival order, and no chunk for the terminator. -/
theorem eventSourceHandler_done_spec {T U : Type} (chunkSchema : JsonSchema T)
    (input : HandlerInput U) (valid : List ParsedEvent) (done : ParsedEvent)
    (hbody : input.response.body = some (valid ++ [done]))
    (hdone : done.data = ("[DONE]"))
    (hvalid : ∀ ev ∈ valid, ev.data ≠ ("[DONE]") ∧
      ∃ v, safeParseJSON chunkSchema ev.data = Except.ok v) :
    ∃ vs : List T,
      List.Forall₂ (fun ev v => safeParseJSON chunkSchema ev.data = Except.ok v) valid vs ∧
      createEventSourceResponseHandler chunkSchema input =
        Except.ok (vs.map ParsedChunk.value) := by
  have key : ∀ l : List ParsedEvent,
      (∀ ev ∈ l, ev.data ≠ ("[DONE]") ∧
        ∃ v, safeParseJSON chunkSchema ev.data = Except.ok v) →
      ∃ vs : List T,
        List.Forall₂ (fun ev v => safeParseJSON chunkSchema ev.data = Except.ok v) l vs ∧
        l.filterMap (eventSourceStep chunkSchema) = vs.map ParsedChunk.value := by
    intro l
    induction l with
    | nil => exact fun _ => ⟨[], List.Forall₂.nil, rfl⟩
    | cons e es ih =>
      intro hl
      obtain ⟨hne, v, hv⟩ := hl e (List.mem_cons_self e es)
      obtain ⟨vs, h1, h2⟩ := ih (fun ev hev => hl ev (List.mem_cons_of_mem e hev))
      refine ⟨v :: vs, List.Forall₂.cons hv h1, ?_⟩
      rw [List.filterMap_cons, eventSourceStep_eq_some_chunkOf chunkSchema e hne, h2]
      unfold chunkOf
      rw [hv]
      rfl
  obtain ⟨vs, h1, h2⟩ := key valid hvalid
  refine ⟨vs, h1, ?_⟩
  unfold createEventSourceResponseHandler
  rw [hbody]
  show Except.ok ((valid ++ [done]).filterMap (eventSourceStep chunkSchema)) = _
  rw [List.filterMap_append, h2]
  rw [show List.filterMap (eventSourceStep chunkSchema) [done] = [] from by
    rw [List.filterMap_cons, eventSourceStep_done chunkSchema done hdone]; rfl]
  rw [List.append_nil]

/-- Witness for C7: the fixture stream of two decodable events plus the
terminator yields exactly two success-tagged chunks. -/
theorem eventSourceHandler_done_spec_witness :
    ∃ vs : List Nat,
      List.Forall₂ (fun ev v => safeParseJSON natSchema ev.data = Except.ok v)
        [evOk1, evOk2] vs ∧
      createEventSourceResponseHandler natSchema inputStream =
        Except.ok (vs.map ParsedChunk.value) :=
  eventSourceHandler_done_spec natSchema inputStream [evOk1, evOk2] evDone rfl rfl
    (by
      intro ev hev
      rcases List.mem_cons.mp hev with h | h
      · subst h; exact ⟨by decide, 1, rfl⟩
      · rcases List.mem_cons.mp h with h2 | h2
        · subst h2; exact ⟨by decide, 2, rfl⟩
        · exact absurd h2 (List.not_mem_nil ev))

/-- C10: the streaming handler reads only the response of its input: two inputs
sharing a response produce equal outcomes whatever their url and request
payload. -/
theorem eventSourceHandler_response_only_spec {T U : Type} (chunkSchema : JsonSchema T)
    (a b : HandlerInput U) (h : a.response = b.response) :
    createEventSourceResponseHandler (T := T) chunkSchema a =
      createEventSourceResponseHandler chunkSchema b := by
  unfold createEventSourceResponseHandler
  rw [h]

/-- Witness for C10: two fixture inputs sharing a streaming response but
differing in url and in request payload produce the same outcome. -/
theorem eventSourceHandler_response_only_spec_witness :
    inputStream.url ≠ inputStreamAlt.url ∧
    inputStream.requestBodyValues ≠ inputStreamAlt.requestBodyValues ∧
    createEventSourceResponseHandler (T := Nat) natSchema inputStream =
      createEventSourceResponseHandler natSchema inputStreamAlt :=
  ⟨by decide, by decide,
   eventSourceHandler_response_only_spec natSchema inputStream inputStreamAlt rfl⟩

/-- C9: the whole-body handler returns the validated value exactly when the body
text decodes under the schema, and otherwise throws a Structured API Error whose
message is the invalid-JSON-response message, carrying the decode failure as
cause, the response status code and the raw body text. -/
theorem jsonResponseHandler_spec {T U : Type} (responseSchema : JsonSchema T)
    (input : HandlerInput U) :
    (∀ v : T, safeParseJSON responseSchema input.response.bodyText = Except.ok v →
      createJsonResponseHandler responseSchema input = Except.ok v) ∧
    (∀ e : String, safeParseJSON responseSchema input.response.bodyText = Except.error e →
      ∃ err : ApiCallError U T,
        createJsonResponseHandler responseSchema input = Except.error err ∧
        err.message = ("Invalid JSON response") ∧ err.cause = some e ∧
        err.statusCode = input.response.status ∧
        err.responseBody = input.response.bodyText) := by
  constructor
  · intro v hv
    unfold createJsonResponseHandler
    rw [hv]
  · intro e he
    unfold createJsonResponseHandler
    rw [he]
    exact ⟨_, rfl, rfl, rfl, rfl, rfl⟩

/-- Witness for C9: the decodable fixture body returns its value; the
undecodable fixture body throws the wrapping error with its decode failure as
cause. -/
theorem jsonResponseHandler_spec_witness :
    createJsonResponseHandler natSchema inputParsed = Except.ok 42 ∧
    ∃ err : ApiCallError Nat Nat,
      createJsonResponseHandler natSchema inputBad = Except.error err ∧
      err.message = ("Invalid JSON response") ∧
      err.cause = some (("invalid JSON: ") ++ ("oops")) ∧
      err.statusCode = inputBad.response.status ∧
      err.responseBody = inputBad.response.bodyText :=
  ⟨(jsonResponseHandler_spec natSchema inputParsed).1 42 (by rfl),
   (jsonResponseHandler_spec natSchema inputBad).2 (("invalid JSON: ") ++ ("oops")) (by rfl)⟩
